import Mathlib

/-!
Shallow embedding of the `tg-ai-gen` repository: the DeepSeek completion
client (`deepseek_client.py`, `generate_text`) and the one-shot channel
dispatcher (`main.py`, `run_once`).

External collaborators (the HTTP transport, `json.loads`, the Telegram
bot, the configured channel mapping) are modelled as explicit inputs:
an HTTP exchange is a status code, a raw body string, and the result of
`json.loads` on that body; the dispatcher's two network calls are
oracles passed in as functions.
-/

/-- JSON values as produced by Python's `json.loads`: objects are
association lists of string keys (Python dicts, insertion-ordered). -/
inductive Json where
  | null
  | bool (b : Bool)
  | num (n : Int)
  | str (s : String)
  | arr (elems : List Json)
  | obj (fields : List (String × Json))

/-- Dict lookup on a JSON object's fields (Python `dict.get` /
`dict.__getitem__` key search; parsed JSON objects have unique keys). -/
def getField : List (String × Json) → String → Option Json
  | [], _ => none
  | (k, v) :: rest, key => if k == key then some v else getField rest key

/-- Python truthiness of a decoded JSON value (`None`, `False`, `0`,
`""`, `[]`, `{}` are falsy). -/
def pyTruthy : Json → Bool
  | .null => false
  | .bool b => b
  | .num n => n != 0
  | .str s => s.data != []
  | .arr l => !l.isEmpty
  | .obj f => !f.isEmpty

/-- Python whitespace characters recognised by `str.strip()` (the ASCII
ones; the claims involve only ASCII bodies). -/
def isPyWS (c : Char) : Bool :=
  c == ' ' || c == '\t' || c == '\n' || c == '\r' || c == '\x0b' || c == '\x0c'

/-- Model of Python `str.strip()`: drop leading and trailing whitespace. -/
def pyStrip (s : String) : String :=
  ⟨((s.data.dropWhile isPyWS).reverse.dropWhile isPyWS).reverse⟩

/-- Model of Python `str.rstrip("/")`: drop every trailing slash. -/
def rstripSlashes (s : String) : String :=
  ⟨(s.data.reverse.dropWhile (· == '/')).reverse⟩

/-- Model of Python `str.split("/")` on the character list: split on every
occurrence of the separator, keeping empty segments. -/
def splitOnChar (c : Char) : List Char → List (List Char)
  | [] => [[]]
  | x :: xs =>
    match splitOnChar c xs with
    | [] => [[x]]
    | g :: gs => if x == c then [] :: g :: gs else (x :: g) :: gs

/-- Substring containment on character lists, modelling Python's
`needle in haystack` for strings. -/
def containsSub (pat : List Char) : List Char → Bool
  | [] => pat.isEmpty
  | x :: xs => pat.isPrefixOf (x :: xs) || containsSub pat xs

/-- Endpoint construction of `generate_text` (deepseek_client.py lines
42-48): strip trailing slashes from the configured base URL, take the
last `/`-separated segment, and test `"/v" in` that segment to decide
whether to insert `/v1`. -/
def endpointOf (ds_base_url : String) : String :=
  let base_url := rstripSlashes ds_base_url
  if containsSub "/v".data (((splitOnChar '/' base_url.data).getLast?).getD []) then
    base_url ++ "/chat/completions"
  else
    base_url ++ "/v1/chat/completions"

/-- Message-list construction of `generate_text` (deepseek_client.py
lines 55-58): `if system_prompt:` is Python truthiness, so `None` and
the empty string both omit the system message. Each message is a
(role, content) pair. -/
def buildMessages (system_prompt : Option String) (prompt : String) :
    List (String × String) :=
  match system_prompt with
  | some s => if s.data != [] then [("system", s), ("user", prompt)] else [("user", prompt)]
  | none => [("user", prompt)]

/-- Decimal-digit list to value; `none` unless the list is a non-empty
run of digits. -/
def digitsVal (l : List Char) : Option Nat :=
  if l ≠ [] ∧ l.all Char.isDigit then
    some (l.foldl (fun a c => a * 10 + (c.toNat - 48)) 0)
  else
    none

/-- Model of Python `int(s)` on a decimal string: optional surrounding
whitespace, optional sign, then digits; `none` models the `ValueError`
raised on anything else. (Python also accepts `_` digit separators;
no claim depends on that.) -/
def pyInt? (s : String) : Option Int :=
  match (s.data.dropWhile isPyWS).reverse.dropWhile isPyWS |>.reverse with
  | '-' :: ds => (digitsVal ds).map (fun n => -(n : Int))
  | '+' :: ds => (digitsVal ds).map (fun n => (n : Int))
  | ds => (digitsVal ds).map (fun n => (n : Int))

/-- Configuration slice consumed by `generate_text` (config.py, class
DeepSeek). -/
structure DeepSeekConfig where
  ds_base_url : String
  ds_api_key : String
  ds_model : String

/-- Request assembled by `generate_text` before the network call
(deepseek_client.py lines 42-66): endpoint, bearer key, model,
ordered message list, sampling parameters, streaming disabled. -/
structure CompletionRequest where
  endpoint : String
  api_key : String
  model : String
  messages : List (String × String)
  temperature : Int
  max_tokens : Int
  stream : Bool

/-- Request-building half of `generate_text` (deepseek_client.py lines
42-66). -/
def generate_request (cfg : DeepSeekConfig) (prompt : String)
    (system_prompt : Option String) (temperature max_tokens : Int) :
    CompletionRequest :=
  { endpoint := endpointOf cfg.ds_base_url
    api_key := cfg.ds_api_key
    model := cfg.ds_model
    messages := buildMessages system_prompt prompt
    temperature := temperature
    max_tokens := max_tokens
    stream := false }

/-- One HTTP exchange as `generate_text` observes it: the status code,
the raw body text (read first, line 74), and the result of
`json.loads` on that body — `none` models a raised `JSONDecodeError`. -/
structure HttpResponse where
  status : Nat
  raw_text : String
  json? : Option Json

/-- Failure modes of `generate_text`. The first three are the
`RuntimeError`s raised at deepseek_client.py lines 88, 93 and 102; in
spec terms: UpstreamError, MalformedResponseError, UnexpectedShapeError.
`uncaughtAttribute` models the `AttributeError` that `content.strip()`
(line 104) raises when `content` is not a string — that line sits
outside the parse `try`, so the error escapes unclassified. `timeout`
models the transport-level timeout (spec's TimeoutError). -/
inductive GenError where
  | upstream (status : Nat) (message : Json)
  | malformed (raw : String)
  | unexpectedShape (data : Json)
  | uncaughtAttribute
  | timeout

/-- Error-message extraction in the error-status branch
(deepseek_client.py lines 77-87): `err_json.get("error", {}).get("message")
or err_json.get("message") or raw_text`, with every exception of the
`try` block (parse failure, `.get` on a non-dict) swallowed, leaving
`err_message = raw_text`. -/
def extractErrMessage (raw : String) (json? : Option Json) : Json :=
  match json? with
  | none => .str raw
  | some (.obj fs) =>
    match (getField fs "error").getD (.obj []) with
    | .obj efs =>
      match getField efs "message" with
      | some m =>
        if pyTruthy m then m
        else
          match getField fs "message" with
          | some m2 => if pyTruthy m2 then m2 else .str raw
          | none => .str raw
      | none =>
        match getField fs "message" with
        | some m2 => if pyTruthy m2 then m2 else .str raw
        | none => .str raw
    | _ => .str raw
  | some _ => .str raw

/-- Python subscript `j[key]` with a string key: succeeds only on a dict
that has the key (`KeyError` when absent, `TypeError` on non-dicts). -/
def pySubscrStr (j : Json) (key : String) : Except Unit Json :=
  match j with
  | .obj fs =>
    match getField fs key with
    | some v => .ok v
    | none => .error ()
  | _ => .error ()

/-- Python subscript `j[0]`: first element of a list (`IndexError` when
empty), first character of a string, error on everything else
(`KeyError` on dicts, whose parsed keys are strings; `TypeError`
otherwise). -/
def pySubscrZero (j : Json) : Except Unit Json :=
  match j with
  | .arr (x :: _) => .ok x
  | .str s =>
    match s.data with
    | c :: _ => .ok (.str ⟨[c]⟩)
    | [] => .error ()
  | _ => .error ()

/-- The defensive-parsing `try` block of `generate_text`
(deepseek_client.py lines 96-100): `data["choices"]`, `choices[0]`,
`first["message"]`, `message["content"]`, where any raised subscript
error is caught at line 101. -/
def tryExtract (data : Json) : Except Unit Json :=
  match pySubscrStr data "choices" with
  | .error e => .error e
  | .ok choices =>
    match pySubscrZero choices with
    | .error e => .error e
    | .ok first =>
      match pySubscrStr first "message" with
      | .error e => .error e
      | .ok message => pySubscrStr message "content"

/-- Response-handling half of `generate_text` (deepseek_client.py lines
74-104): error statuses raise the upstream `RuntimeError`; otherwise a
non-JSON body raises the non-JSON `RuntimeError`; otherwise the
defensive parse either raises the unexpected-format `RuntimeError`,
returns `content.strip()` when `content` is a string, or — `content`
being a non-string — lets `content.strip()` raise an uncaught
`AttributeError` (line 104 is outside the `try`). -/
def generate_response (resp : HttpResponse) : Except GenError String :=
  if 400 ≤ resp.status then
    .error (.upstream resp.status (extractErrMessage resp.raw_text resp.json?))
  else
    match resp.json? with
    | none => .error (.malformed resp.raw_text)
    | some data =>
      match tryExtract data with
      | .error _ => .error (.unexpectedShape data)
      | .ok (.str s) => .ok (pyStrip s)
      | .ok _ => .error .uncaughtAttribute

/-- Whole `generate_text` call, given the transport as an oracle mapping
the assembled request to the HTTP exchange it produces. -/
def generate_text (cfg : DeepSeekConfig) (prompt : String)
    (system_prompt : Option String) (temperature max_tokens : Int)
    (transport : CompletionRequest → HttpResponse) : Except GenError String :=
  generate_response (transport (generate_request cfg prompt system_prompt temperature max_tokens))

/-- Expected response shape, following the spec's words: a `choices`
entry holding a non-empty list whose first element has a `message`
object; gives that object's `content` value when all of this holds. -/
def contentOfShape (data : Json) : Option Json :=
  match data with
  | .obj fs =>
    match getField fs "choices" with
    | some (.arr (first :: _)) =>
      match first with
      | .obj ffs =>
        match getField ffs "message" with
        | some (.obj mfs) => getField mfs "content"
        | _ => none
      | _ => none
    | _ => none
  | _ => none

/-- Whether the body has the full expected shape of the spec, the
`content` value being a string. -/
def shapeContentStr (data : Json) : Bool :=
  match contentOfShape data with
  | some (.str _) => true
  | _ => false

/-- Upstream-message rule as the (amended) spec states it: the
`error.message` value when the parsed body is a JSON object whose
`error` field (an absent field counting as an empty object) holds an
object with a truthy `message`; else the body's truthy top-level
`message` value; else the raw body text — in particular raw text when
parsing fails, when the body or the `error` value is not an object,
or when both candidate fields are absent or falsy. -/
def specUpstreamMessage (raw : String) (json? : Option Json) : Json :=
  let fields? :=
    match json? with
    | some (.obj fs) => some fs
    | _ => none
  match fields? with
  | none => .str raw
  | some fs =>
    let errFields? :=
      match (getField fs "error").getD (.obj []) with
      | .obj efs => some efs
      | _ => none
    match errFields? with
    | none => .str raw
    | some efs =>
      let m1? := (getField efs "message").filter pyTruthy
      let m2? := (getField fs "message").filter pyTruthy
      ((m1?.or m2?).getD (.str raw))

/-- Failure of the messaging send (aiogram `bot.send_message`), an
external collaborator; the spec's DeliveryError, carrying its text. -/
structure SendError where
  message : String

/-- The exception a task's `try` block caught: either the generate step
or the delivery step failed (main.py line 44 catches both uniformly). -/
inductive TaskError where
  | gen (e : GenError)
  | deliver (e : SendError)

/-- Per-task outcome of the dispatcher — the spec's ChannelOutcome,
realised in main.py as the `[OK]`/`[ERR]` line printed for the task. -/
inductive ChannelOutcome where
  | success (channel_id : Int)
  | failure (channel_id : Int) (detail : TaskError)

/-- A destination task: an integer channel id and its prompt — the
spec's ChannelTask (main.py builds `channel_id` at line 34). -/
structure ChannelTask where
  channel_id : Int
  prompt : String

/-- Loop body of `run_once` after the id is parsed (main.py lines
36-46): generate, then send, `except Exception` turning any failure of
either step into that task's failure outcome. The two network calls
are oracles: `gen` maps a prompt to `generate_text`'s result, `send`
maps channel id and text to the delivery result. -/
def runTask (gen : String → Except GenError String)
    (send : Int → String → Except SendError Unit)
    (t : ChannelTask) : ChannelOutcome :=
  match gen t.prompt with
  | .error e => .failure t.channel_id (.gen e)
  | .ok text =>
    match send t.channel_id text with
    | .error e => .failure t.channel_id (.deliver e)
    | .ok _ => .success t.channel_id

/-- The dispatcher's run over already-built tasks: the `run_once` loop
(main.py lines 33-46) processed strictly in order, one task at a time. -/
def runTasks (gen : String → Except GenError String)
    (send : Int → String → Except SendError Unit) :
    List ChannelTask → List ChannelOutcome
  | [] => []
  | t :: rest => runTask gen send t :: runTasks gen send rest

/-- Result of a whole `run_once` invocation: the outcomes produced
before the run ended, and — when `int(channel_id_str)` raised — the
offending id string of the uncaught `ValueError` that aborted the run. -/
structure RunResult where
  outcomes : List ChannelOutcome
  aborted : Option String

/-- Whole `run_once` (main.py lines 33-46) over the configured mapping
of channel-id strings to prompts: per entry, `int(channel_id_str)` runs
OUTSIDE the `try`, so an unparsable id aborts the run; otherwise the
task runs inside the per-task failure boundary. -/
def run_once (gen : String → Except GenError String)
    (send : Int → String → Except SendError Unit) :
    List (String × String) → RunResult
  | [] => ⟨[], none⟩
  | (channel_id_str, prompt) :: rest =>
    match pyInt? channel_id_str with
    | none => ⟨[], some channel_id_str⟩
    | some channel_id =>
      let oc := runTask gen send ⟨channel_id, prompt⟩
      let r := run_once gen send rest
      ⟨oc :: r.outcomes, r.aborted⟩

/-- Observable network calls the dispatcher makes while running a task:
the generate call with its prompt (main.py line 38) and the delivery
call with its channel id and text (main.py line 41). -/
inductive Event where
  | genCall (prompt : String)
  | sendCall (channel_id : Int) (text : String)
deriving DecidableEq

/-- Call trace of one task (main.py lines 38-41): generate is always
called; the delivery call happens exactly when generate returned text,
and carries that text. -/
def runTaskEvents (gen : String → Except GenError String)
    (t : ChannelTask) : List Event :=
  match gen t.prompt with
  | .error _ => [.genCall t.prompt]
  | .ok text => [.genCall t.prompt, .sendCall t.channel_id text]

/-- Call trace of the whole sequential run. -/
def runEvents (gen : String → Except GenError String) :
    List ChannelTask → List Event
  | [] => []
  | t :: rest => runTaskEvents gen t ++ runEvents gen rest

/-- Generation oracle that succeeds on every prompt. -/
def demoGen : String → Except GenError String :=
  fun p => .ok ("gen " ++ p)

/-- Generation oracle that fails on prompt "B" with an upstream error
and succeeds elsewhere. -/
def demoGenFailB : String → Except GenError String :=
  fun p => if p == "B" then .error (.upstream 500 (.str "boom")) else .ok ("gen " ++ p)

/-- Delivery oracle that always succeeds. -/
def demoSend : Int → String → Except SendError Unit :=
  fun _ _ => .ok ()

/-- Three concrete tasks A, B, C. -/
def demoTasks : List ChannelTask :=
  [⟨1, "A"⟩, ⟨2, "B"⟩, ⟨3, "C"⟩]

/-- A configured mapping whose ids all parse. -/
def demoMapping : List (String × String) :=
  [("1", "A"), ("2", "B")]

/-- A configured mapping whose second id is not a decimal integer. -/
def badMapping : List (String × String) :=
  [("1", "A"), ("abc", "B"), ("2", "C")]

/-- Parsed body `{"choices":[]}`. -/
def dataEmptyChoices : Json := .obj [("choices", .arr [])]

/-- Status-200 exchange with body `{"choices":[]}`. -/
def respEmptyChoices : HttpResponse :=
  ⟨200, "\x7b\"choices\": []\x7d", some dataEmptyChoices⟩

/-- Parsed body whose `content` is the number 5, not a string. -/
def dataNumContent : Json :=
  .obj [("choices", .arr [.obj [("message", .obj [("content", .num 5)])]])]

/-- Status-200 exchange whose body parses to `dataNumContent`. -/
def respNumContent : HttpResponse :=
  ⟨200, "\x7b\"choices\": [\x7b\"message\": \x7b\"content\": 5\x7d\x7d]\x7d", some dataNumContent⟩

/-- Parsed body `{"choices":[{"message":{"content":" Hello "}}]}`. -/
def dataHello : Json :=
  .obj [("choices", .arr [.obj [("message", .obj [("content", .str " Hello ")])]])]

/-- Status-200 exchange whose body parses to `dataHello`. -/
def respHello : HttpResponse :=
  ⟨200, "\x7b\"choices\": [\x7b\"message\": \x7b\"content\": \" Hello \"\x7d\x7d]\x7d", some dataHello⟩

/-- Status-401 exchange with body `{"error":{"message":"invalid api key"}}`. -/
def respKey401 : HttpResponse :=
  ⟨401, "\x7b\"error\": \x7b\"message\": \"invalid api key\"\x7d\x7d",
    some (.obj [("error", .obj [("message", .str "invalid api key")])])⟩

/-- Fields of a body whose `error.message` is present but empty while a
top-level `message` holds "x". -/
def fieldsFalsyMsg : List (String × Json) :=
  [("error", .obj [("message", .str "")]), ("message", .str "x")]

/-- Status-401 exchange whose body parses to `fieldsFalsyMsg`. -/
def respFalsyMsg : HttpResponse :=
  ⟨401, "\x7b\"error\": \x7b\"message\": \"\"\x7d, \"message\": \"x\"\x7d", some (.obj fieldsFalsyMsg)⟩

/-- Characterisation of the defensive parse: the `try` block of
`generate_text` succeeds exactly when the spec's expected-shape path
exists, and then returns the `content` value at the end of that path. -/
theorem tryExtract_eq (data : Json) :
    tryExtract data = (contentOfShape data).elim (Except.error ()) Except.ok := by
  cases data <;> simp [tryExtract, contentOfShape, pySubscrStr]
  case obj fs =>
    cases h : getField fs "choices" with
    | none => simp
    | some v =>
      cases v <;> simp [pySubscrZero, pySubscrStr]
      case str s =>
        cases hd : s.data <;> simp [pySubscrStr]
      case arr l =>
        cases l with
        | nil => simp
        | cons first rest =>
          cases first <;> simp [pySubscrStr]
          case obj ffs =>
            cases h2 : getField ffs "message" with
            | none => simp
            | some mv =>
              cases mv <;> simp [pySubscrStr]
              case obj mfs =>
                cases h3 : getField mfs "content" <;> simp

/-- The source's best-effort error-message extraction computes exactly
the message the amended spec describes. -/
theorem extract_eq_spec (raw : String) (json? : Option Json) :
    extractErrMessage raw json? = specUpstreamMessage raw json? := by
  cases json? with
  | none => simp [extractErrMessage, specUpstreamMessage]
  | some j =>
    cases j <;> simp [extractErrMessage, specUpstreamMessage]
    case obj fs =>
      cases hv : (getField fs "error").getD (.obj []) <;> simp [hv]
      case obj efs =>
        cases h1 : getField efs "message" with
        | none =>
          cases h2 : getField fs "message" with
          | none => simp [Option.filter, Option.or]
          | some m2 =>
            by_cases ht : pyTruthy m2 <;> simp [Option.filter, Option.or, ht]
        | some m1 =>
          by_cases ht1 : pyTruthy m1 <;>
            cases h2 : getField fs "message" <;>
              simp [Option.filter, Option.or, ht1]
          case neg.some m2 =>
            by_cases ht2 : pyTruthy m2 <;> simp [Option.filter, Option.or, ht2]

/-- Each position of the dispatcher's outcome list is the outcome of
the task at the same position. -/
theorem runTasks_getElem? (gen : String → Except GenError String)
    (send : Int → String → Except SendError Unit)
    (tasks : List ChannelTask) (i : Nat) :
    (runTasks gen send tasks)[i]? = tasks[i]?.map (runTask gen send) := by
  induction tasks generalizing i with
  | nil => simp [runTasks]
  | cons t rest ih =>
    cases i with
    | zero => simp [runTasks]
    | succ j => simpa [runTasks] using ih j

/-- The dispatcher produces one outcome per task. -/
theorem runTasks_length (gen : String → Except GenError String)
    (send : Int → String → Except SendError Unit)
    (tasks : List ChannelTask) :
    (runTasks gen send tasks).length = tasks.length := by
  induction tasks with
  | nil => rfl
  | cons t rest ih => simpa [runTasks] using ih

/-- Claim C2: when every configured channel-id string parses — i.e. the
run is over N well-formed channel tasks — `run_once` aborts nowhere,
its report holds exactly N outcomes, and the outcome at each position
is the outcome of the task built from the mapping entry at that same
position: outcome order equals task order. -/
theorem run_report_complete (gen : String → Except GenError String)
    (send : Int → String → Except SendError Unit)
    (mapping : List (String × String))
    (h : ∀ p ∈ mapping, (pyInt? p.1).isSome = true) :
    (run_once gen send mapping).aborted = none ∧
    (run_once gen send mapping).outcomes.length = mapping.length ∧
    ∀ (i : Nat) (cs pr : String) (cid : Int), mapping[i]? = some (cs, pr) →
      pyInt? cs = some cid →
      (run_once gen send mapping).outcomes[i]? = some (runTask gen send ⟨cid, pr⟩) := by
  induction mapping with
  | nil => refine ⟨rfl, rfl, ?_⟩; intro i cs pr cid hi; simp at hi
  | cons p rest ih =>
    obtain ⟨cs0, pr0⟩ := p
    have h0 : (pyInt? cs0).isSome = true := h (cs0, pr0) (List.mem_cons_self _ _)
    obtain ⟨cid0, hcid0⟩ := Option.isSome_iff_exists.mp h0
    have hrest := ih (fun q hq => h q (by simp [hq]))
    refine ⟨?_, ?_, ?_⟩
    · simp [run_once, hcid0, hrest.1]
    · simp [run_once, hcid0, hrest.2.1]
    · intro i cs pr cid hi hp
      cases i with
      | zero =>
        simp at hi
        obtain ⟨rfl, rfl⟩ := hi
        rw [hcid0] at hp
        obtain rfl : cid0 = cid := by injection hp
        simp [run_once, hcid0]
      | succ j =>
        simp at hi
        simpa [run_once, hcid0] using hrest.2.2 j cs pr cid hi hp

/-- Witness for C2: on the two-entry mapping with ids "1" and "2", the
run aborts nowhere and reports exactly two outcomes. -/
theorem run_report_complete_inst :
    (run_once demoGen demoSend demoMapping).aborted = none ∧
    (run_once demoGen demoSend demoMapping).outcomes.length = 2 :=
  ⟨(run_report_complete demoGen demoSend demoMapping (by decide)).1,
   (run_report_complete demoGen demoSend demoMapping (by decide)).2.1⟩

/-- Claim C3: if a task's generate step or its send step fails, the
dispatcher records a Failure outcome carrying that task's channel id at
that task's position — and every position of the report, this one's
neighbours included, is determined by its own task alone, so one task's
failure neither halts the run nor changes any other task's outcome. -/
theorem run_failure_isolated (gen : String → Except GenError String)
    (send : Int → String → Except SendError Unit)
    (tasks : List ChannelTask) (i : Nat) (t : ChannelTask)
    (ht : tasks[i]? = some t)
    (hfail : (∃ e, gen t.prompt = .error e) ∨
      ∃ text e, gen t.prompt = .ok text ∧ send t.channel_id text = .error e) :
    (∃ d, (runTasks gen send tasks)[i]? = some (.failure t.channel_id d)) ∧
    ∀ (j : Nat) (u : ChannelTask), tasks[j]? = some u →
      (runTasks gen send tasks)[j]? = some (runTask gen send u) := by
  refine ⟨?_, fun j u hu => by rw [runTasks_getElem?, hu]; rfl⟩
  rw [runTasks_getElem?, ht]
  rcases hfail with ⟨e, he⟩ | ⟨text, e, hok, herr⟩
  · exact ⟨.gen e, by simp [runTask, he]⟩
  · exact ⟨.deliver e, by simp [runTask, hok, herr]⟩

/-- Witness for C3: with tasks A, B, C where only B's generate fails,
position 1 is a Failure for channel 2 and the whole report is
exactly [Success 1, Failure 2, Success 3]. -/
theorem run_failure_isolated_inst :
    (∃ d, (runTasks demoGenFailB demoSend demoTasks)[1]? = some (.failure 2 d)) ∧
    runTasks demoGenFailB demoSend demoTasks =
      [.success 1, .failure 2 (.gen (.upstream 500 (.str "boom"))), .success 3] :=
  ⟨(run_failure_isolated demoGenFailB demoSend demoTasks 1 ⟨2, "B"⟩ rfl
      (.inl ⟨.upstream 500 (.str "boom"), rfl⟩)).1, rfl⟩

/-- Claim C4 (amended): a non-error response whose valid-JSON body lacks
the spec's expected-shape path (no `choices` key, `choices` not a
non-empty list, first element without a `message` object, or no
`content` entry) fails with UnexpectedShapeError carrying the parsed
structure; but when the path exists and its `content` value is merely
not a string, the failure is instead the uncaught attribute error of
`content.strip()`, which lies outside the defensive `try`. -/
theorem shape_error_classification (resp : HttpResponse) (data : Json)
    (hst : resp.status < 400) (hj : resp.json? = some data)
    (hns : shapeContentStr data = false) :
    (contentOfShape data = none →
      generate_response resp = .error (.unexpectedShape data)) ∧
    ∀ c, contentOfShape data = some c →
      generate_response resp = .error .uncaughtAttribute := by
  have hnot : ¬ 400 ≤ resp.status := Nat.not_le.mpr hst
  constructor
  · intro h0
    simp [generate_response, hnot, hj, tryExtract_eq, h0]
  · intro c hc
    unfold shapeContentStr at hns
    rw [hc] at hns
    cases c <;>
      simp_all [generate_response, hnot, hj, tryExtract_eq, hc]

/-- Witness for C4: status 200 with body `{"choices":[]}` yields the
unexpected-shape error carrying the parsed structure. -/
theorem shape_error_classification_inst :
    generate_response respEmptyChoices = .error (.unexpectedShape dataEmptyChoices) :=
  (shape_error_classification respEmptyChoices dataEmptyChoices (by decide) rfl rfl).1 rfl

/-- Counterexample for C4 as frozen: the body
`{"choices":[{"message":{"content":5}}]}` lacks the expected shape (its
`content` is not a string), yet the failure is the uncaught attribute
error, not an UnexpectedShapeError. -/
theorem shape_error_nonstring_cex :
    shapeContentStr dataNumContent = false ∧
    generate_response respNumContent = .error .uncaughtAttribute :=
  ⟨rfl, rfl⟩

/-- Claim C5 (amended): every error-status response fails with an
UpstreamError carrying the status code and the message that
`specUpstreamMessage` describes: the truthy `error.message` value of a
JSON-object body whose `error` field holds an object (absent counting
as empty), else the body's truthy top-level `message` value, else the
raw body text — parse and extraction mishaps all swallowed into the
raw-text fallback, never propagated. -/
theorem upstream_error_spec_message (resp : HttpResponse)
    (h : 400 ≤ resp.status) :
    generate_response resp =
      .error (.upstream resp.status (specUpstreamMessage resp.raw_text resp.json?)) := by
  simp [generate_response, h, extract_eq_spec]

/-- Witness for C5: status 401 with body
`{"error":{"message":"invalid api key"}}` fails with an UpstreamError
whose message is exactly "invalid api key". -/
theorem upstream_error_spec_message_inst :
    400 ≤ 401 ∧
    generate_response respKey401 = .error (.upstream 401 (.str "invalid api key")) :=
  ⟨by decide, (upstream_error_spec_message respKey401 (by decide)).trans rfl⟩

/-- Counterexample for C5 as frozen: at status 401 with body
`{"error":{"message":""},"message":"x"}` the `error.message` field is
present (holding the empty string), yet the code's message is the
top-level "x" — presence alone does not decide the extraction,
truthiness does. -/
theorem upstream_message_falsy_cex :
    getField fieldsFalsyMsg "error" = some (.obj [("message", .str "")]) ∧
    generate_response respFalsyMsg = .error (.upstream 401 (.str "x")) ∧
    ((Json.str "x" = Json.str "") → False) := by
  refine ⟨rfl, rfl, fun hx => ?_⟩
  exact absurd (by injection hx) (by decide : ¬ ("x" : String) = "")

/-- Claim C1 (code bug): evaluation of the endpoint construction. A bare
host gets `/v1/chat/completions` appended as the claim says, but the
pre-versioned base `"https://api.deepseek.com/v1/"` yields a DOUBLE
`/v1`: the test `"/v" in base_url.split("/")[-1]` can never hold, since
a segment produced by splitting on "/" contains no "/", so the
version-detection branch the code's own comments describe is dead. -/
theorem endpoint_versioned_base_double_v1 :
    endpointOf "https://api.deepseek.com" = "https://api.deepseek.com/v1/chat/completions" ∧
    endpointOf "https://api.deepseek.com/v1/" = "https://api.deepseek.com/v1/v1/chat/completions" ∧
    endpointOf "https://api.deepseek.com/v1/" ≠ "https://api.deepseek.com/v1/chat/completions" :=
  ⟨rfl, rfl, by decide⟩

/-- Claim C6: a non-error response whose valid-JSON body has the
expected shape — the spec's path ends at a string — returns that string
with surrounding whitespace stripped. -/
theorem success_trimmed_content (resp : HttpResponse) (data : Json)
    (s : String) (hst : resp.status < 400) (hj : resp.json? = some data)
    (hc : contentOfShape data = some (.str s)) :
    generate_response resp = .ok (pyStrip s) := by
  have hnot : ¬ 400 ≤ resp.status := Nat.not_le.mpr hst
  simp [generate_response, hnot, hj, tryExtract_eq, hc]

/-- Witness for C6: body `{"choices":[{"message":{"content":" Hello "}}]}`
at status 200 returns "Hello". -/
theorem success_trimmed_content_inst :
    generate_response respHello = .ok "Hello" :=
  (success_trimmed_content respHello dataHello " Hello " (by decide) rfl rfl).trans rfl

/-- Claim C7: a non-error response whose body is not valid JSON fails
with MalformedResponseError carrying the raw body text. -/
theorem nonjson_malformed (resp : HttpResponse)
    (hst : resp.status < 400) (hj : resp.json? = none) :
    generate_response resp = .error (.malformed resp.raw_text) := by
  have hnot : ¬ 400 ≤ resp.status := Nat.not_le.mpr hst
  simp [generate_response, hnot, hj]

/-- Witness for C7: status 200 with body "not json". -/
theorem nonjson_malformed_inst :
    generate_response ⟨200, "not json", none⟩ = .error (.malformed "not json") :=
  nonjson_malformed ⟨200, "not json", none⟩ (by decide) rfl

/-- Claim C8: every delivery call in the dispatcher's trace belongs to
some input task and carries exactly the text that task's generate call
returned — delivery is never attempted unless generate fully succeeded
for that task's prompt. -/
theorem send_only_generated_text (gen : String → Except GenError String)
    (tasks : List ChannelTask) (cid : Int) (txt : String)
    (h : Event.sendCall cid txt ∈ runEvents gen tasks) :
    ∃ t, t ∈ tasks ∧ t.channel_id = cid ∧ gen t.prompt = .ok txt := by
  induction tasks with
  | nil => simp [runEvents] at h
  | cons t rest ih =>
    rw [runEvents, List.mem_append] at h
    rcases h with h | h
    · unfold runTaskEvents at h
      cases hg : gen t.prompt with
      | error e => rw [hg] at h; simp at h
      | ok text =>
        rw [hg] at h
        simp at h
        obtain ⟨rfl, rfl⟩ := h
        exact ⟨t, List.mem_cons_self _ _, rfl, hg⟩
    · obtain ⟨u, hu, hcid, hok⟩ := ih h
      exact ⟨u, List.mem_cons_of_mem _ hu, hcid, hok⟩

/-- Witness for C8: in the trace of tasks A, B, C under the oracle that
fails on B, the delivery call (1, "gen A") traces back to task A whose
generate call returned "gen A". -/
theorem send_only_generated_text_inst :
    ∃ t, t ∈ demoTasks ∧ t.channel_id = 1 ∧ demoGenFailB t.prompt = .ok "gen A" :=
  send_only_generated_text demoGenFailB demoTasks 1 "gen A" (by decide)

/-- Claim C9: `int(channel_id_str)` runs outside the per-task `try`: on
the mapping whose second id is "abc" (not a decimal integer) the run
aborts at that entry with the uncaught parse error, after the first
task's Success outcome but with no Failure outcome for the bad entry
and no outcome for the third entry. -/
theorem int_parse_outside_task_boundary :
    pyInt? "abc" = none ∧
    run_once demoGen demoSend badMapping = ⟨[.success 1], some "abc"⟩ :=
  ⟨rfl, rfl⟩

/-- Claim C10: an empty-string system prompt builds the same message
list as an absent one — `if system_prompt:` tests truthiness, so both
yield only the user message. -/
theorem empty_system_prompt_no_system_message (prompt : String) :
    buildMessages (some "") prompt = buildMessages none prompt ∧
    buildMessages (some "") prompt = [("user", prompt)] :=
  ⟨rfl, rfl⟩
